import Mathlib

/-!
Verification of the TaskManager web API core: the project-membership
mutation (`add_user_to_project`, from `app/api/projects.py` and
`app/models.py`) and the authorization-gated paginated task listing
(`tasks_by_project`, from `app/api/tasks.py`), over a shallow embedding
of the relational data model of `app/models.py`.

Timestamps are modelled as natural numbers.  Request-body validation
(pydantic `ProjectAddUserIn`) and query-string integer parsing (Python
`int(...)`) are external collaborators; they are modelled by small sum
types recording only their observable outcome, which is all the routes
branch on.
-/

namespace TaskManager

/-- `User` model (`app/models.py`): id, name, unique email, password. -/
structure User where
  id : Nat
  name : String
  email : String
  password : String
deriving Repr, DecidableEq

/-- `Project` model (`app/models.py`): id, title, optional description,
display order, `updated_at` timestamp, and the `users` relationship
(member user ids, in relationship order).  `created_at` is omitted: no
route in this development reads it.  The source declares
`updated_at = Column(..., onupdate=datetime.utcnow)`: that hook fires
only when an UPDATE statement is emitted for the `projects` row itself;
appending to the `users` relationship emits only an INSERT into the
`project_users` association table, so no operation modelled here writes
`updated_at`. -/
structure Project where
  id : Nat
  title : String
  description : Option String
  order : Int
  updated_at : Nat
  users : List Nat
deriving Repr, DecidableEq

/-- `Task` model (`app/models.py`): id, title, optional description,
integer order (primary sort key), owning project id. -/
structure Task where
  id : Nat
  title : String
  description : Option String
  order : Int
  project_id : Nat
deriving Repr, DecidableEq

/-- A row of the `project_users` association table (`app/models.py`):
(project_id, user_id) plus the `assigned_at` column, whose default
stamps the insertion time. -/
structure ProjectUserRow where
  project_id : Nat
  user_id : Nat
  assigned_at : Nat
deriving Repr, DecidableEq

/-- The relational store: the four tables.  Lists model tables in
insertion (creation) order. -/
structure DB where
  users : List User
  projects : List Project
  tasks : List Task
  project_users : List ProjectUserRow
deriving Repr, DecidableEq

/-- `User.query.filter_by(email=...).first()`. -/
def findUserByEmail (db : DB) (email : String) : Option User :=
  db.users.find? (fun u => u.email == email)

/-- `Project.query.get_or_404(project_id)` seen as an option: `none` is
the 404 outcome. -/
def findProject (db : DB) (pid : Nat) : Option Project :=
  db.projects.find? (fun p => p.id == pid)

/-- The project fields serialized by `Project.to_dict`
(`app/models.py`), with `user_count = len(self.users)`. -/
structure ProjectDict where
  id : Nat
  title : String
  description : Option String
  order : Int
  updated_at : Nat
  user_count : Nat
deriving Repr, DecidableEq

/-- `Project.to_dict` (`app/models.py`). -/
def Project.to_dict (p : Project) : ProjectDict :=
  { id := p.id, title := p.title, description := p.description,
    order := p.order, updated_at := p.updated_at,
    user_count := p.users.length }

/-- `Project.add_user` (`app/models.py`): raises `ValueError` when the
project already has 3 users, otherwise appends the user unless already
present.  The `Except.error` branch is the raised `ValueError` with the
f-string message. -/
def Project.add_user (p : Project) (uid : Nat) : Except String Project :=
  if 3 ≤ p.users.length then
    Except.error ("Project " ++ p.title ++ " already has maximum 3 users")
  else if !(p.users.contains uid) then
    Except.ok { p with users := p.users ++ [uid] }
  else
    Except.ok p

/-- `Project.can_add_user` (`app/models.py`). -/
def Project.can_add_user (p : Project) : Bool :=
  p.users.length < 3

/-- Outcome of validating the request body against `ProjectAddUserIn`
(pydantic, external): either a `ValidationError`, or a validated
payload carrying the email string. -/
inductive AddUserBody where
  | invalid
  | valid (email : String)
deriving Repr, DecidableEq

/-- The observable response of the add-user route: HTTP status code,
message, and the serialized project when one is returned. -/
structure AddUserResponse where
  code : Nat
  message : String
  project : Option ProjectDict
deriving Repr, DecidableEq

/-- `add_user_to_project` route (`app/api/projects.py`): validate body
(422), `get_or_404` the project (404), resolve the user by email (404),
idempotent success when already a member (200), `Project.add_user` with
`ValueError` mapped to 400, otherwise commit the append together with
the association row (its `assigned_at` column default stamps `now`) and
return the refreshed project (200).  Returns the post-commit store and
the response. -/
def add_user_to_project (db : DB) (project_id : Nat) (body : AddUserBody)
    (now : Nat) : DB × AddUserResponse :=
  match body with
  | .invalid => (db, ⟨422, "Validation error", none⟩)
  | .valid email =>
    match findProject db project_id with
    | none => (db, ⟨404, "Not Found", none⟩)
    | some project =>
      match findUserByEmail db email with
      | none => (db, ⟨404, "User not found", none⟩)
      | some user =>
        if project.users.contains user.id then
          (db, ⟨200, "User already in project", some project.to_dict⟩)
        else
          match project.add_user user.id with
          | .error msg => (db, ⟨400, msg, none⟩)
          | .ok p2 =>
            ({ db with
                projects := db.projects.map
                  (fun q => if q.id == project_id then p2 else q),
                project_users := db.project_users ++
                  [⟨project_id, user.id, now⟩] },
             ⟨200, "User added to project", some p2.to_dict⟩)

/-- Outcome of `int(request.args.get(name, default))` for a query
parameter (Python `int(...)` is external): the parameter was absent
(the default applies), present but not parseable as an integer
(`ValueError`), or present with integer value `n`. -/
inductive QInt where
  | absent
  | notInt
  | val (n : Int)
deriving Repr, DecidableEq

/-- Resolve a `QInt` against its route default; `none` is the
`ValueError` outcome. -/
def QInt.resolve (q : QInt) (dflt : Int) : Option Int :=
  match q with
  | .absent => some dflt
  | .notInt => none
  | .val n => some n

/-- The task fields serialized by `Task.to_dict` (`app/models.py`). -/
structure TaskDict where
  id : Nat
  title : String
  description : Option String
  order : Int
  project_id : Nat
deriving Repr, DecidableEq

/-- `Task.to_dict` (`app/models.py`). -/
def Task.to_dict (t : Task) : TaskDict :=
  { id := t.id, title := t.title, description := t.description,
    order := t.order, project_id := t.project_id }

/-- The pagination metadata block of the task-listing response. -/
structure Pagination where
  page : Int
  per_page : Int
  total : Nat
  pages : Nat
deriving Repr, DecidableEq

/-- Observable response of the task-listing route: an error with HTTP
status code and message, or the success payload. -/
inductive TasksResponse where
  | err (code : Nat) (message : String)
  | ok (project_id : Nat) (user_email : String) (pagination : Pagination)
      (tasks : List TaskDict)
deriving Repr, DecidableEq

/-- `ORDER BY tasks.order ASC, tasks.id ASC`: the lexicographic
comparison on `(order, id)`, a decidable total preorder on tasks. -/
def taskLE (a b : Task) : Prop :=
  a.order < b.order ∨ (a.order = b.order ∧ a.id ≤ b.id)

instance : DecidableRel taskLE := fun a b => by
  unfold taskLE; infer_instance

instance : IsTotal Task taskLE := ⟨by intro a b; unfold taskLE; omega⟩

instance : IsTrans Task taskLE := ⟨by intro a b c; unfold taskLE; omega⟩

/-- `Task.query.filter_by(project_id=pid).order_by(Task.order.asc(),
Task.id.asc())` (`app/api/tasks.py`): the project's tasks arranged in
the query's total order. -/
def orderedTasks (db : DB) (pid : Nat) : List Task :=
  List.insertionSort taskLE (db.tasks.filter (fun t => t.project_id == pid))

/-- `pages = (total + per_page - 1) // per_page if per_page else 0`
(`app/api/tasks.py`); both operands are non-negative at the use site,
so Python floor division is natural-number division. -/
def computePages (total pp : Nat) : Nat :=
  if pp ≠ 0 then (total + pp - 1) / pp else 0

/-- `tasks_by_project` route (`app/api/tasks.py`): require a non-empty
`email` query param (400), resolve the user by email (404),
`get_or_404` the project (404), require membership (403), parse
`page`/`per_page` with defaults 1/10 (400 on `ValueError`), reject
`page < 1` and `per_page < 1` (400), clamp `per_page` to 100, and
return the `[(page-1)*per_page, (page-1)*per_page + per_page)` window
of the ordered task sequence with pagination metadata. -/
def tasks_by_project (db : DB) (project_id : Nat) (email : Option String)
    (pageQ perPageQ : QInt) : TasksResponse :=
  match email with
  | none => .err 400 "Missing required query param: email"
  | some e =>
    if e == "" then .err 400 "Missing required query param: email"
    else
      match findUserByEmail db e with
      | none => .err 404 "User not found"
      | some user =>
        match findProject db project_id with
        | none => .err 404 "Not Found"
        | some project =>
          if !(project.users.contains user.id) then
            .err 403 "Forbidden"
          else
            match pageQ.resolve 1, perPageQ.resolve 10 with
            | none, _ => .err 400 "page and per_page must be integers"
            | _, none => .err 400 "page and per_page must be integers"
            | some page, some per_page =>
              if page < 1 then .err 400 "page must be >= 1"
              else if per_page < 1 then .err 400 "per_page must be >= 1"
              else
                let pp2 := min per_page 100
                let ordered := orderedTasks db project_id
                let total := ordered.length
                let items :=
                  (ordered.drop ((page - 1).toNat * pp2.toNat)).take pp2.toNat
                let pgs := computePages total pp2.toNat
                .ok project_id e ⟨page, pp2, total, pgs⟩
                  (items.map Task.to_dict)

/-- Pagination block of a successful response. -/
def TasksResponse.pagination? : TasksResponse → Option Pagination
  | .ok _ _ pg _ => some pg
  | .err _ _ => none

/-- Task list of a successful response. -/
def TasksResponse.tasks? : TasksResponse → Option (List TaskDict)
  | .ok _ _ _ ts => some ts
  | .err _ _ => none

/-! ## Supporting lemmas -/

/-- `taskLE` in both directions pins down the sort key `(order, id)`. -/
lemma taskLE_key_antisymm {a b : Task} (h1 : taskLE a b) (h2 : taskLE b a) :
    a.order = b.order ∧ a.id = b.id := by
  unfold taskLE at h1 h2; omega

/-- Two lists of tasks that are permutations of each other, both sorted
by `taskLE`, and whose task ids are distinct, are equal: the `(order,
id)` ordering is a total order on rows with distinct primary keys. -/
lemma eq_of_perm_of_sorted_of_nodupIds :
    ∀ (l1 l2 : List Task), l1.Perm l2 → l1.Pairwise taskLE → l2.Pairwise taskLE →
      (l1.map Task.id).Nodup → l1 = l2 := by
  intro l1
  induction l1 with
  | nil =>
    intro l2 hp _ _ _
    exact (hp.symm.eq_nil).symm
  | cons a t1 ih =>
    intro l2 hp h1 h2 hn
    cases l2 with
    | nil => exact absurd hp.eq_nil (by simp)
    | cons b t2 =>
      have hab : a = b := by
        by_contra hne
        have hbmem : b = a ∨ b ∈ t1 :=
          List.mem_cons.mp (hp.symm.subset (List.mem_cons_self b t2))
        have hamem : a = b ∨ a ∈ t2 :=
          List.mem_cons.mp (hp.subset (List.mem_cons_self a t1))
        have hb1 : b ∈ t1 := hbmem.resolve_left (fun h => hne h.symm)
        have ha2 : a ∈ t2 := hamem.resolve_left hne
        have hab1 : taskLE a b := (List.pairwise_cons.mp h1).1 b hb1
        have hba : taskLE b a := (List.pairwise_cons.mp h2).1 a ha2
        have hkey := taskLE_key_antisymm hab1 hba
        have hdup : a.id ∈ t1.map Task.id := by
          rw [hkey.2]
          exact List.mem_map_of_mem Task.id hb1
        exact (List.nodup_cons.mp hn).1 hdup
      subst hab
      have ht := ih t2 hp.cons_inv (List.pairwise_cons.mp h1).2
        (List.pairwise_cons.mp h2).2 (List.nodup_cons.mp hn).2
      rw [ht]

/-- The ordered task sequence is a permutation of the project's task
rows. -/
lemma orderedTasks_perm (db : DB) (pid : Nat) :
    (orderedTasks db pid).Perm (db.tasks.filter (fun t => t.project_id == pid)) :=
  List.perm_insertionSort taskLE _

/-- The ordered task sequence is sorted by `(order, id)`. -/
lemma orderedTasks_sorted (db : DB) (pid : Nat) :
    (orderedTasks db pid).Pairwise taskLE :=
  List.sorted_insertionSort taskLE _

/-- For positive `pp`, `computePages total pp` is exactly the ceiling
of `total / pp`: the least `k` with `total ≤ pp * k`. -/
lemma computePages_spec (total pp : Nat) (hpp : 0 < pp) :
    total ≤ pp * computePages total pp ∧
    pp * computePages total pp < total + pp ∧
    ∀ k, total ≤ pp * k → computePages total pp ≤ k := by
  have hne : pp ≠ 0 := by omega
  unfold computePages
  simp only [hne, ne_eq, not_false_eq_true, if_true]
  have h1 := Nat.div_add_mod (total + pp - 1) pp
  have h2 : (total + pp - 1) % pp < pp := Nat.mod_lt _ hpp
  refine ⟨by omega, by omega, ?_⟩
  intro k hk
  by_contra hlt
  push_neg at hlt
  have h3 : pp * (k + 1) ≤ pp * ((total + pp - 1) / pp) := Nat.mul_le_mul_left pp hlt
  rw [Nat.mul_succ] at h3
  omega

/-- A found project satisfies the lookup predicate and belongs to the
table. -/
lemma findProject_id_eq {db : DB} {pid : Nat} {p : Project}
    (h : findProject db pid = some p) : p.id = pid := by
  have := List.find?_some h
  simpa using this

lemma findProject_mem {db : DB} {pid : Nat} {p : Project}
    (h : findProject db pid = some p) : p ∈ db.projects :=
  List.mem_of_find?_eq_some h

/-- Looking up `pid` after replacing every row whose id is `pid` by a
row `p2` with that id yields `p2`, provided the lookup succeeded
before. -/
lemma find?_map_update (projects : List Project) (pid : Nat) (p p2 : Project)
    (hfp : projects.find? (fun q => q.id == pid) = some p) (hid : p2.id = pid) :
    (projects.map (fun q => if q.id == pid then p2 else q)).find?
      (fun q => q.id == pid) = some p2 := by
  induction projects with
  | nil => simp [List.find?] at hfp
  | cons q qs ih =>
    by_cases h : q.id = pid
    · simp [List.find?, h, hid]
    · rw [List.find?_cons_of_neg _ (by simpa using h)] at hfp
      simp only [List.map_cons]
      rw [if_neg (by simpa using h), List.find?_cons_of_neg _ (by simpa using h)]
      exact ih hfp

/-! ## Claim theorems -/

/-- C1: the membership cap holds.  Starting from a store in which every
project has at most 3 members, any `add_user_to_project` call preserves
that bound; and when the addressed project already has exactly 3
members and the resolved user is not among them, the call fails with
status 400 and the maximum-users message, leaving the store (hence the
membership set) unchanged. -/
theorem C1_membership_cap (db : DB) (pid : Nat) (now : Nat)
    (hinv : ∀ q ∈ db.projects, q.users.length ≤ 3) :
    (∀ body : AddUserBody, ∀ q ∈ (add_user_to_project db pid body now).1.projects,
      q.users.length ≤ 3)
    ∧ ∀ email p u,
        findProject db pid = some p →
        findUserByEmail db email = some u →
        p.users.length = 3 →
        u.id ∉ p.users →
        (add_user_to_project db pid (AddUserBody.valid email) now).2.code = 400 ∧
        (add_user_to_project db pid (AddUserBody.valid email) now).2.message
          = "Project " ++ p.title ++ " already has maximum 3 users" ∧
        (add_user_to_project db pid (AddUserBody.valid email) now).1 = db := by
  constructor
  · intro body q hq
    cases body with
    | invalid => exact hinv q (by simpa [add_user_to_project] using hq)
    | valid email =>
      cases hfp : findProject db pid with
      | none => exact hinv q (by simpa [add_user_to_project, hfp] using hq)
      | some project =>
        cases hfu : findUserByEmail db email with
        | none => exact hinv q (by simpa [add_user_to_project, hfp, hfu] using hq)
        | some user =>
          by_cases hmem : user.id ∈ project.users
          · exact hinv q (by simpa [add_user_to_project, hfp, hfu, hmem] using hq)
          · by_cases h3 : 3 ≤ project.users.length
            · exact hinv q
                (by simpa [add_user_to_project, Project.add_user, hfp, hfu, hmem, h3]
                  using hq)
            · simp [add_user_to_project, Project.add_user, hfp, hfu, hmem, h3] at hq
              rcases hq with ⟨q0, hq0, rfl⟩
              by_cases hid : q0.id = pid
              · simp only [hid, if_true]
                simp only [List.length_append, List.length_singleton]
                omega
              · rw [if_neg hid]
                exact hinv q0 hq0

  · intro email p u hfp hfu hlen hnm
    have h3 : 3 ≤ p.users.length := by omega
    refine ⟨?_, ?_, ?_⟩ <;>
      simp [add_user_to_project, Project.add_user, hfp, hfu, hnm, h3]

/-- C1 witness. -/
theorem C1_membership_cap_witness :
    (∀ q ∈ (⟨[⟨1, "a", "a@x", "pw"⟩, ⟨4, "d", "d@x", "pw"⟩],
        [⟨1, "P", none, 0, 0, [1, 2, 3]⟩], [], []⟩ : DB).projects, q.users.length ≤ 3)
    ∧ ((∀ body : AddUserBody, ∀ q ∈ (add_user_to_project
          ⟨[⟨1, "a", "a@x", "pw"⟩, ⟨4, "d", "d@x", "pw"⟩],
            [⟨1, "P", none, 0, 0, [1, 2, 3]⟩], [], []⟩ 1 body 7).1.projects,
          q.users.length ≤ 3)
        ∧ ∀ email p u,
            findProject ⟨[⟨1, "a", "a@x", "pw"⟩, ⟨4, "d", "d@x", "pw"⟩],
              [⟨1, "P", none, 0, 0, [1, 2, 3]⟩], [], []⟩ 1 = some p →
            findUserByEmail ⟨[⟨1, "a", "a@x", "pw"⟩, ⟨4, "d", "d@x", "pw"⟩],
              [⟨1, "P", none, 0, 0, [1, 2, 3]⟩], [], []⟩ email = some u →
            p.users.length = 3 →
            u.id ∉ p.users →
            (add_user_to_project ⟨[⟨1, "a", "a@x", "pw"⟩, ⟨4, "d", "d@x", "pw"⟩],
              [⟨1, "P", none, 0, 0, [1, 2, 3]⟩], [], []⟩ 1
                (AddUserBody.valid email) 7).2.code = 400 ∧
            (add_user_to_project ⟨[⟨1, "a", "a@x", "pw"⟩, ⟨4, "d", "d@x", "pw"⟩],
              [⟨1, "P", none, 0, 0, [1, 2, 3]⟩], [], []⟩ 1
                (AddUserBody.valid email) 7).2.message
              = "Project " ++ p.title ++ " already has maximum 3 users" ∧
            (add_user_to_project ⟨[⟨1, "a", "a@x", "pw"⟩, ⟨4, "d", "d@x", "pw"⟩],
              [⟨1, "P", none, 0, 0, [1, 2, 3]⟩], [], []⟩ 1
                (AddUserBody.valid email) 7).1
              = ⟨[⟨1, "a", "a@x", "pw"⟩, ⟨4, "d", "d@x", "pw"⟩],
                  [⟨1, "P", none, 0, 0, [1, 2, 3]⟩], [], []⟩) :=
  ⟨by decide, C1_membership_cap _ 1 7 (by decide)⟩

/-- C2: `add_user_to_project` is idempotent on an existing member: it
succeeds with status 200 and the already-a-member message, leaves the
store (hence the membership set) unchanged, and a second identical call
returns the identical result. -/
theorem C2_add_user_idempotent (db : DB) (pid : Nat) (email : String) (now : Nat)
    (p : Project) (u : User)
    (hfp : findProject db pid = some p)
    (hfu : findUserByEmail db email = some u)
    (hmem : u.id ∈ p.users) :
    (add_user_to_project db pid (AddUserBody.valid email) now).1 = db ∧
    (add_user_to_project db pid (AddUserBody.valid email) now).2.code = 200 ∧
    (add_user_to_project db pid (AddUserBody.valid email) now).2.message
      = "User already in project" ∧
    (add_user_to_project db pid (AddUserBody.valid email) now).2.project
      = some p.to_dict ∧
    add_user_to_project (add_user_to_project db pid (AddUserBody.valid email) now).1
        pid (AddUserBody.valid email) now
      = add_user_to_project db pid (AddUserBody.valid email) now := by
  have hr : add_user_to_project db pid (AddUserBody.valid email) now
      = (db, ⟨200, "User already in project", some p.to_dict⟩) := by
    simp [add_user_to_project, hfp, hfu, hmem]
  rw [hr]
  exact ⟨rfl, rfl, rfl, rfl, by rw [hr]⟩

/-- C2 witness. -/
theorem C2_add_user_idempotent_witness :
    findProject ⟨[⟨1, "a", "a@x", "pw"⟩], [⟨1, "P", none, 0, 0, [1]⟩], [], []⟩ 1
      = some ⟨1, "P", none, 0, 0, [1]⟩
    ∧ findUserByEmail ⟨[⟨1, "a", "a@x", "pw"⟩], [⟨1, "P", none, 0, 0, [1]⟩], [], []⟩ "a@x"
      = some ⟨1, "a", "a@x", "pw"⟩
    ∧ ((add_user_to_project ⟨[⟨1, "a", "a@x", "pw"⟩], [⟨1, "P", none, 0, 0, [1]⟩], [], []⟩
          1 (AddUserBody.valid "a@x") 7).1
        = ⟨[⟨1, "a", "a@x", "pw"⟩], [⟨1, "P", none, 0, 0, [1]⟩], [], []⟩ ∧
      (add_user_to_project ⟨[⟨1, "a", "a@x", "pw"⟩], [⟨1, "P", none, 0, 0, [1]⟩], [], []⟩
          1 (AddUserBody.valid "a@x") 7).2.code = 200 ∧
      (add_user_to_project ⟨[⟨1, "a", "a@x", "pw"⟩], [⟨1, "P", none, 0, 0, [1]⟩], [], []⟩
          1 (AddUserBody.valid "a@x") 7).2.message = "User already in project" ∧
      (add_user_to_project ⟨[⟨1, "a", "a@x", "pw"⟩], [⟨1, "P", none, 0, 0, [1]⟩], [], []⟩
          1 (AddUserBody.valid "a@x") 7).2.project
        = some (Project.to_dict ⟨1, "P", none, 0, 0, [1]⟩) ∧
      add_user_to_project (add_user_to_project
          ⟨[⟨1, "a", "a@x", "pw"⟩], [⟨1, "P", none, 0, 0, [1]⟩], [], []⟩
          1 (AddUserBody.valid "a@x") 7).1 1 (AddUserBody.valid "a@x") 7
        = add_user_to_project ⟨[⟨1, "a", "a@x", "pw"⟩], [⟨1, "P", none, 0, 0, [1]⟩], [], []⟩
            1 (AddUserBody.valid "a@x") 7) :=
  ⟨by decide, by decide,
    C2_add_user_idempotent _ 1 "a@x" 7 ⟨1, "P", none, 0, 0, [1]⟩ ⟨1, "a", "a@x", "pw"⟩
      (by decide) (by decide) (by decide)⟩

/-- C8 (amended): a successful member addition returns 200 with the
added message, the refreshed representation carries `user_count` equal
to the new member-set size, the committed store holds the appended
membership list and the new `project_users` row stamped with
`assigned_at = now`, other tables are untouched — and the project's
`updated_at` is NOT refreshed: the `onupdate` hook fires only on an
UPDATE of the `projects` row, which a membership append never emits. -/
theorem C8_add_commit_effects (db : DB) (pid : Nat) (email : String) (now : Nat)
    (p : Project) (u : User)
    (hfp : findProject db pid = some p)
    (hfu : findUserByEmail db email = some u)
    (hnm : u.id ∉ p.users)
    (hlt : p.users.length < 3) :
    (add_user_to_project db pid (AddUserBody.valid email) now).2.code = 200 ∧
    (add_user_to_project db pid (AddUserBody.valid email) now).2.message
      = "User added to project" ∧
    (add_user_to_project db pid (AddUserBody.valid email) now).2.project
      = some (Project.to_dict { p with users := p.users ++ [u.id] }) ∧
    ((add_user_to_project db pid (AddUserBody.valid email) now).2.project).map
        ProjectDict.user_count = some (p.users.length + 1) ∧
    findProject (add_user_to_project db pid (AddUserBody.valid email) now).1 pid
      = some { p with users := p.users ++ [u.id] } ∧
    (findProject (add_user_to_project db pid (AddUserBody.valid email) now).1 pid).map
        Project.updated_at = some p.updated_at ∧
    (add_user_to_project db pid (AddUserBody.valid email) now).1.project_users
      = db.project_users ++ [⟨pid, u.id, now⟩] ∧
    (add_user_to_project db pid (AddUserBody.valid email) now).1.users = db.users ∧
    (add_user_to_project db pid (AddUserBody.valid email) now).1.tasks = db.tasks := by
  have h3 : ¬ 3 ≤ p.users.length := by omega
  have hr : add_user_to_project db pid (AddUserBody.valid email) now =
      ({ db with
          projects := db.projects.map
            (fun q => if q.id == pid then { p with users := p.users ++ [u.id] } else q),
          project_users := db.project_users ++ [⟨pid, u.id, now⟩] },
       ⟨200, "User added to project",
        some (Project.to_dict { p with users := p.users ++ [u.id] })⟩) := by
    simp [add_user_to_project, Project.add_user, hfp, hfu, hnm, h3]
  have hid1 : p.id = pid := findProject_id_eq hfp
  have hid2 : ({ p with users := p.users ++ [u.id] } : Project).id = pid := hid1
  have hfind : findProject (add_user_to_project db pid (AddUserBody.valid email) now).1 pid
      = some { p with users := p.users ++ [u.id] } := by
    rw [hr]
    exact find?_map_update db.projects pid p _ hfp hid2
  refine ⟨by rw [hr], by rw [hr], by rw [hr], ?_, hfind, ?_, by rw [hr], by rw [hr], by rw [hr]⟩
  · rw [hr]
    simp [Project.to_dict]
  · rw [hfind]
    rfl

/-- C8 witness. -/
theorem C8_add_commit_effects_witness :
    findProject ⟨[⟨1, "a", "a@x", "pw"⟩, ⟨2, "b", "b@x", "pw"⟩],
        [⟨1, "P", none, 0, 5, [1]⟩], [], []⟩ 1 = some ⟨1, "P", none, 0, 5, [1]⟩
    ∧ ((2 : Nat) ∉ ([1] : List Nat))
    ∧ ((add_user_to_project ⟨[⟨1, "a", "a@x", "pw"⟩, ⟨2, "b", "b@x", "pw"⟩],
          [⟨1, "P", none, 0, 5, [1]⟩], [], []⟩ 1 (AddUserBody.valid "b@x") 99).2.code = 200 ∧
      (add_user_to_project ⟨[⟨1, "a", "a@x", "pw"⟩, ⟨2, "b", "b@x", "pw"⟩],
          [⟨1, "P", none, 0, 5, [1]⟩], [], []⟩ 1 (AddUserBody.valid "b@x") 99).2.message
        = "User added to project" ∧
      (add_user_to_project ⟨[⟨1, "a", "a@x", "pw"⟩, ⟨2, "b", "b@x", "pw"⟩],
          [⟨1, "P", none, 0, 5, [1]⟩], [], []⟩ 1 (AddUserBody.valid "b@x") 99).2.project
        = some (Project.to_dict { (⟨1, "P", none, 0, 5, [1]⟩ : Project) with
            users := [1] ++ [2] }) ∧
      ((add_user_to_project ⟨[⟨1, "a", "a@x", "pw"⟩, ⟨2, "b", "b@x", "pw"⟩],
          [⟨1, "P", none, 0, 5, [1]⟩], [], []⟩ 1 (AddUserBody.valid "b@x") 99).2.project).map
          ProjectDict.user_count = some (([1] : List Nat).length + 1) ∧
      findProject (add_user_to_project ⟨[⟨1, "a", "a@x", "pw"⟩, ⟨2, "b", "b@x", "pw"⟩],
          [⟨1, "P", none, 0, 5, [1]⟩], [], []⟩ 1 (AddUserBody.valid "b@x") 99).1 1
        = some { (⟨1, "P", none, 0, 5, [1]⟩ : Project) with users := [1] ++ [2] } ∧
      (findProject (add_user_to_project ⟨[⟨1, "a", "a@x", "pw"⟩, ⟨2, "b", "b@x", "pw"⟩],
          [⟨1, "P", none, 0, 5, [1]⟩], [], []⟩ 1 (AddUserBody.valid "b@x") 99).1 1).map
          Project.updated_at = some (Project.updated_at ⟨1, "P", none, 0, 5, [1]⟩) ∧
      (add_user_to_project ⟨[⟨1, "a", "a@x", "pw"⟩, ⟨2, "b", "b@x", "pw"⟩],
          [⟨1, "P", none, 0, 5, [1]⟩], [], []⟩ 1 (AddUserBody.valid "b@x") 99).1.project_users
        = [] ++ [⟨1, 2, 99⟩] ∧
      (add_user_to_project ⟨[⟨1, "a", "a@x", "pw"⟩, ⟨2, "b", "b@x", "pw"⟩],
          [⟨1, "P", none, 0, 5, [1]⟩], [], []⟩ 1 (AddUserBody.valid "b@x") 99).1.users
        = [⟨1, "a", "a@x", "pw"⟩, ⟨2, "b", "b@x", "pw"⟩] ∧
      (add_user_to_project ⟨[⟨1, "a", "a@x", "pw"⟩, ⟨2, "b", "b@x", "pw"⟩],
          [⟨1, "P", none, 0, 5, [1]⟩], [], []⟩ 1 (AddUserBody.valid "b@x") 99).1.tasks = []) :=
  ⟨by decide, by decide,
    C8_add_commit_effects _ 1 "b@x" 99 ⟨1, "P", none, 0, 5, [1]⟩ ⟨2, "b", "b@x", "pw"⟩
      (by decide) (by decide) (by decide) (by decide)⟩

/-- C8 counterexample to the claim as stated: at a concrete store whose
project has `updated_at = 5`, a successful member addition performed at
time 99 leaves the persisted `updated_at` at 5 — the operation does not
update the project's `updated_at` timestamp. -/
theorem C8_updated_at_not_refreshed :
    (add_user_to_project ⟨[⟨1, "a", "a@x", "pw"⟩, ⟨2, "b", "b@x", "pw"⟩],
        [⟨1, "P", none, 0, 5, [1]⟩], [], []⟩ 1 (AddUserBody.valid "b@x") 99).2.code = 200
    ∧ (findProject (add_user_to_project ⟨[⟨1, "a", "a@x", "pw"⟩, ⟨2, "b", "b@x", "pw"⟩],
          [⟨1, "P", none, 0, 5, [1]⟩], [], []⟩ 1 (AddUserBody.valid "b@x") 99).1 1).map
        Project.updated_at = some 5
    ∧ ((add_user_to_project ⟨[⟨1, "a", "a@x", "pw"⟩, ⟨2, "b", "b@x", "pw"⟩],
          [⟨1, "P", none, 0, 5, [1]⟩], [], []⟩ 1
          (AddUserBody.valid "b@x") 99).2.project).map ProjectDict.updated_at = some 5
    ∧ (5 : Nat) ≠ 99 := by
  decide

/-- C10: `Project.add_user` tests the cap before the already-member
test, so on a full project it raises the `ValueError` even for a user
who is already a member; the route nevertheless answers an
already-member request on a full project with the idempotent 200,
because it checks membership itself before calling `add_user`. -/
theorem C10_cap_checked_before_membership (p : Project) (uid : Nat)
    (h3 : 3 ≤ p.users.length) (hmem : uid ∈ p.users)
    (db : DB) (pid : Nat) (email : String) (now : Nat) (q : Project) (u : User)
    (hfp : findProject db pid = some q)
    (hfu : findUserByEmail db email = some u)
    (hq3 : 3 ≤ q.users.length) (hqmem : u.id ∈ q.users) :
    Project.add_user p uid
      = Except.error ("Project " ++ p.title ++ " already has maximum 3 users")
    ∧ (add_user_to_project db pid (AddUserBody.valid email) now).2.code = 200
    ∧ (add_user_to_project db pid (AddUserBody.valid email) now).2.message
      = "User already in project"
    ∧ (add_user_to_project db pid (AddUserBody.valid email) now).1 = db := by
  refine ⟨?_, ?_, ?_, ?_⟩
  · unfold Project.add_user
    rw [if_pos h3]
  all_goals simp [add_user_to_project, hfp, hfu, hqmem]

/-- C10 witness. -/
theorem C10_cap_checked_before_membership_witness :
    (3 ≤ ([1, 2, 3] : List Nat).length) ∧ ((1 : Nat) ∈ ([1, 2, 3] : List Nat))
    ∧ (Project.add_user ⟨1, "P", none, 0, 0, [1, 2, 3]⟩ 1
        = Except.error ("Project " ++ "P" ++ " already has maximum 3 users")
      ∧ (add_user_to_project ⟨[⟨1, "a", "a@x", "pw"⟩], [⟨1, "P", none, 0, 0, [1, 2, 3]⟩],
            [], []⟩ 1 (AddUserBody.valid "a@x") 7).2.code = 200
      ∧ (add_user_to_project ⟨[⟨1, "a", "a@x", "pw"⟩], [⟨1, "P", none, 0, 0, [1, 2, 3]⟩],
            [], []⟩ 1 (AddUserBody.valid "a@x") 7).2.message = "User already in project"
      ∧ (add_user_to_project ⟨[⟨1, "a", "a@x", "pw"⟩], [⟨1, "P", none, 0, 0, [1, 2, 3]⟩],
            [], []⟩ 1 (AddUserBody.valid "a@x") 7).1
          = ⟨[⟨1, "a", "a@x", "pw"⟩], [⟨1, "P", none, 0, 0, [1, 2, 3]⟩], [], []⟩) :=
  ⟨by decide, by decide,
    C10_cap_checked_before_membership ⟨1, "P", none, 0, 0, [1, 2, 3]⟩ 1 (by decide)
      (by decide) _ 1 "a@x" 7 ⟨1, "P", none, 0, 0, [1, 2, 3]⟩ ⟨1, "a", "a@x", "pw"⟩
      (by decide) (by decide) (by decide) (by decide)⟩

/-- C5: the caller email is resolved before membership is checked.  For
an existing project, an email matching no user yields 404 "User not
found" (not 403), while an email resolving to a user who is not a
member yields 403 "Forbidden". -/
theorem C5_email_before_membership (db : DB) (pid : Nat) (e : String)
    (p : Project) (pageQ ppQ : QInt)
    (hfp : findProject db pid = some p) (hne : e ≠ "") :
    (findUserByEmail db e = none →
      tasks_by_project db pid (some e) pageQ ppQ
        = TasksResponse.err 404 "User not found")
    ∧ ∀ u, findUserByEmail db e = some u → u.id ∉ p.users →
        tasks_by_project db pid (some e) pageQ ppQ
          = TasksResponse.err 403 "Forbidden" := by
  constructor
  · intro hfu
    simp [tasks_by_project, hne, hfu]
  · intro u hfu hnm
    simp [tasks_by_project, hne, hfu, hfp, hnm]

/-- C5 witness. -/
theorem C5_email_before_membership_witness :
    findProject ⟨[⟨1, "a", "a@x", "pw"⟩, ⟨2, "b", "b@x", "pw"⟩],
        [⟨1, "P", none, 0, 0, [1]⟩], [], []⟩ 1 = some ⟨1, "P", none, 0, 0, [1]⟩
    ∧ ("ghost@x.com" : String) ≠ ""
    ∧ ((findUserByEmail ⟨[⟨1, "a", "a@x", "pw"⟩, ⟨2, "b", "b@x", "pw"⟩],
          [⟨1, "P", none, 0, 0, [1]⟩], [], []⟩ "ghost@x.com" = none →
        tasks_by_project ⟨[⟨1, "a", "a@x", "pw"⟩, ⟨2, "b", "b@x", "pw"⟩],
            [⟨1, "P", none, 0, 0, [1]⟩], [], []⟩ 1 (some "ghost@x.com") .absent .absent
          = TasksResponse.err 404 "User not found")
      ∧ ∀ u, findUserByEmail ⟨[⟨1, "a", "a@x", "pw"⟩, ⟨2, "b", "b@x", "pw"⟩],
            [⟨1, "P", none, 0, 0, [1]⟩], [], []⟩ "ghost@x.com" = some u →
          u.id ∉ (⟨1, "P", none, 0, 0, [1]⟩ : Project).users →
          tasks_by_project ⟨[⟨1, "a", "a@x", "pw"⟩, ⟨2, "b", "b@x", "pw"⟩],
              [⟨1, "P", none, 0, 0, [1]⟩], [], []⟩ 1 (some "ghost@x.com") .absent .absent
            = TasksResponse.err 403 "Forbidden") :=
  ⟨by decide, by decide,
    C5_email_before_membership _ 1 "ghost@x.com" ⟨1, "P", none, 0, 0, [1]⟩ .absent .absent
      (by decide) (by decide)⟩

/-- C5 companion at a second input: a valid non-member caller gets 403,
distinct from 404 (the same concrete store, caller "b@x" who exists but
is not a member of project 1). -/
theorem C5_forbidden_for_valid_nonmember :
    tasks_by_project ⟨[⟨1, "a", "a@x", "pw"⟩, ⟨2, "b", "b@x", "pw"⟩],
        [⟨1, "P", none, 0, 0, [1]⟩], [], []⟩ 1 (some "b@x") .absent .absent
      = TasksResponse.err 403 "Forbidden" := by
  decide

/-- An authorized task-listing call with in-range pagination parameters
reduces to the success payload: the clamped `per_page`, the full count
as `total`, the `computePages` value, and the drop/take window of the
ordered task sequence. -/
lemma tasks_by_project_ok (db : DB) (pid : Nat) (e : String) (p : Project) (u : User)
    (pageQ ppQ : QInt) (page pp : Int)
    (hne : e ≠ "") (hfu : findUserByEmail db e = some u)
    (hfp : findProject db pid = some p) (hmem : u.id ∈ p.users)
    (hpage : pageQ.resolve 1 = some page) (hpp : ppQ.resolve 10 = some pp)
    (hp1 : 1 ≤ page) (hpp1 : 1 ≤ pp) :
    tasks_by_project db pid (some e) pageQ ppQ
      = TasksResponse.ok pid e
          ⟨page, min pp 100, (orderedTasks db pid).length,
           computePages (orderedTasks db pid).length (min pp 100).toNat⟩
          ((((orderedTasks db pid).drop ((page - 1).toNat * (min pp 100).toNat)).take
              (min pp 100).toNat).map Task.to_dict) := by
  have hnp : ¬ page < 1 := by omega
  have hnpp : ¬ pp < 1 := by omega
  simp [tasks_by_project, hne, hfu, hfp, hmem, hpage, hpp, hnp, hnpp]

/-- C6: a requested `per_page` above 100 is silently clamped to 100:
the whole response equals the one for a requested `per_page` of 100,
the echoed `per_page` is 100, and at most 100 tasks are returned. -/
theorem C6_per_page_clamped (db : DB) (pid : Nat) (e : String) (p : Project) (u : User)
    (pageQ : QInt) (page n : Int)
    (hne : e ≠ "")
    (hfu : findUserByEmail db e = some u)
    (hfp : findProject db pid = some p)
    (hmem : u.id ∈ p.users)
    (hpage : pageQ.resolve 1 = some page) (hp1 : 1 ≤ page)
    (hn : 100 < n) :
    tasks_by_project db pid (some e) pageQ (QInt.val n)
      = tasks_by_project db pid (some e) pageQ (QInt.val 100)
    ∧ (tasks_by_project db pid (some e) pageQ (QInt.val n)).pagination?.map
        Pagination.per_page = some 100
    ∧ ∀ ts, (tasks_by_project db pid (some e) pageQ (QInt.val n)).tasks? = some ts →
        ts.length ≤ 100 := by
  have h1 := tasks_by_project_ok db pid e p u pageQ (QInt.val n) page n
    hne hfu hfp hmem hpage rfl hp1 (by omega)
  have h2 := tasks_by_project_ok db pid e p u pageQ (QInt.val 100) page 100
    hne hfu hfp hmem hpage rfl hp1 (by omega)
  have hmin : min n 100 = 100 := by omega
  have hmin2 : min (100 : Int) 100 = 100 := by omega
  rw [hmin] at h1
  rw [hmin2] at h2
  refine ⟨by rw [h1, h2], ?_, ?_⟩
  · rw [h1]
    rfl
  · intro ts hts
    rw [h1] at hts
    simp only [TasksResponse.tasks?, Option.some_inj] at hts
    subst hts
    simp only [List.length_map, List.length_take]
    omega

/-- C6 witness: requested `per_page = 500` is echoed as 100. -/
theorem C6_per_page_clamped_witness :
    (("a@x" : String) ≠ "")
    ∧ findUserByEmail ⟨[⟨1, "a", "a@x", "pw"⟩], [⟨1, "P", none, 0, 0, [1]⟩], [], []⟩ "a@x"
        = some ⟨1, "a", "a@x", "pw"⟩
    ∧ ((100 : Int) < 500)
    ∧ (tasks_by_project ⟨[⟨1, "a", "a@x", "pw"⟩], [⟨1, "P", none, 0, 0, [1]⟩], [], []⟩ 1
          (some "a@x") (QInt.val 1) (QInt.val 500)
        = tasks_by_project ⟨[⟨1, "a", "a@x", "pw"⟩], [⟨1, "P", none, 0, 0, [1]⟩], [], []⟩ 1
            (some "a@x") (QInt.val 1) (QInt.val 100)
      ∧ (tasks_by_project ⟨[⟨1, "a", "a@x", "pw"⟩], [⟨1, "P", none, 0, 0, [1]⟩], [], []⟩ 1
            (some "a@x") (QInt.val 1) (QInt.val 500)).pagination?.map
          Pagination.per_page = some 100
      ∧ ∀ ts, (tasks_by_project ⟨[⟨1, "a", "a@x", "pw"⟩], [⟨1, "P", none, 0, 0, [1]⟩],
            [], []⟩ 1 (some "a@x") (QInt.val 1) (QInt.val 500)).tasks? = some ts →
          ts.length ≤ 100) :=
  ⟨by decide, by decide, by decide,
    C6_per_page_clamped _ 1 "a@x" ⟨1, "P", none, 0, 0, [1]⟩ ⟨1, "a", "a@x", "pw"⟩
      (QInt.val 1) 1 500 (by decide) (by decide) (by decide) (by decide) (by decide)
      (by decide) (by decide)⟩

/-- C7 (evaluation at the failing inputs): for an authorized caller on
an existing project, a `page` of 0, a non-integer `page`, and a
`per_page` of 0 each fail with HTTP status 400 — not the 422 the spec
assigns to query-parameter validation failures. -/
theorem C7_pagination_validation_is_400 :
    tasks_by_project ⟨[⟨1, "a", "a@x", "pw"⟩], [⟨1, "P", none, 0, 0, [1]⟩], [], []⟩ 1
        (some "a@x") (QInt.val 0) (QInt.val 10)
      = TasksResponse.err 400 "page must be >= 1"
    ∧ tasks_by_project ⟨[⟨1, "a", "a@x", "pw"⟩], [⟨1, "P", none, 0, 0, [1]⟩], [], []⟩ 1
        (some "a@x") QInt.notInt (QInt.val 10)
      = TasksResponse.err 400 "page and per_page must be integers"
    ∧ tasks_by_project ⟨[⟨1, "a", "a@x", "pw"⟩], [⟨1, "P", none, 0, 0, [1]⟩], [], []⟩ 1
        (some "a@x") (QInt.val 1) (QInt.val 0)
      = TasksResponse.err 400 "per_page must be >= 1" := by
  decide

/-- C4: for an authorized call with `page ≥ 1` and `perPage ≥ 1`,
`total` is the full count of the project's tasks, `pages` is exactly
`ceil(total / perPage)` after clamping (the least `k` covering `total`
with `k` pages of the clamped size), the pages formula yields 0 rather
than dividing when `perPage` is 0, and the returned tasks are exactly
the half-open index window `[(page-1)*perPage, (page-1)*perPage +
perPage)` of the ordered task sequence. -/
theorem C4_pagination_window (db : DB) (pid : Nat) (e : String) (p : Project) (u : User)
    (pageQ ppQ : QInt) (page pp : Int)
    (hne : e ≠ "") (hfu : findUserByEmail db e = some u)
    (hfp : findProject db pid = some p) (hmem : u.id ∈ p.users)
    (hpage : pageQ.resolve 1 = some page) (hpp : ppQ.resolve 10 = some pp)
    (hp1 : 1 ≤ page) (hpp1 : 1 ≤ pp) :
    let total := (db.tasks.filter (fun t => t.project_id == pid)).length
    let ppN := (min pp 100).toNat
    let lo := (page - 1).toNat * ppN
    (tasks_by_project db pid (some e) pageQ ppQ).pagination?
      = some ⟨page, min pp 100, total, computePages total ppN⟩
    ∧ total ≤ ppN * computePages total ppN
    ∧ ppN * computePages total ppN < total + ppN
    ∧ (∀ k, total ≤ ppN * k → computePages total ppN ≤ k)
    ∧ computePages total 0 = 0
    ∧ ∀ i : Nat,
        (tasks_by_project db pid (some e) pageQ ppQ).tasks?.map (fun ts => ts[i]?)
          = some (if i < ppN
              then ((orderedTasks db pid).map Task.to_dict)[lo + i]?
              else none) := by
  intro total ppN lo
  have hcore := tasks_by_project_ok db pid e p u pageQ ppQ page pp
    hne hfu hfp hmem hpage hpp hp1 hpp1
  have hlen : (orderedTasks db pid).length = total :=
    (orderedTasks_perm db pid).length_eq
  have hppN : 0 < ppN := by
    have : (1 : Int) ≤ min pp 100 := by omega
    omega
  obtain ⟨hA, hB, hC⟩ := computePages_spec total ppN hppN
  refine ⟨?_, hA, hB, hC, by simp [computePages], ?_⟩
  · rw [hcore]
    simp [TasksResponse.pagination?, hlen]
  · intro i
    rw [hcore]
    simp only [TasksResponse.tasks?, Option.map_some]
    by_cases hi : i < ppN
    · simp [List.getElem?_map, List.getElem?_take, List.getElem?_drop, hi, lo, ppN]
    · simp [List.getElem?_take, hi, ppN]

/-- C4 witness: two tasks with `per_page = 1` give `pages = 2`; also
`computePages 0 10 = 0` (total=0, per_page=10 gives pages=0). -/
theorem C4_pagination_window_witness :
    (("a@x" : String) ≠ "") ∧ ((1 : Int) ≤ 1)
    ∧ computePages 2 1 = 2 ∧ computePages 0 10 = 0
    ∧ (let total := ((⟨[⟨1, "a", "a@x", "pw"⟩], [⟨1, "P", none, 0, 0, [1]⟩],
            [⟨1, "T1", none, 0, 1⟩, ⟨2, "T2", none, 0, 1⟩], []⟩ : DB).tasks.filter
              (fun t => t.project_id == 1)).length
      let ppN := (min (1 : Int) 100).toNat
      let lo := ((1 : Int) - 1).toNat * ppN
      (tasks_by_project ⟨[⟨1, "a", "a@x", "pw"⟩], [⟨1, "P", none, 0, 0, [1]⟩],
            [⟨1, "T1", none, 0, 1⟩, ⟨2, "T2", none, 0, 1⟩], []⟩ 1 (some "a@x")
            (QInt.val 1) (QInt.val 1)).pagination?
          = some ⟨1, min (1 : Int) 100, total, computePages total ppN⟩
      ∧ total ≤ ppN * computePages total ppN
      ∧ ppN * computePages total ppN < total + ppN
      ∧ (∀ k, total ≤ ppN * k → computePages total ppN ≤ k)
      ∧ computePages total 0 = 0
      ∧ ∀ i : Nat,
          (tasks_by_project ⟨[⟨1, "a", "a@x", "pw"⟩], [⟨1, "P", none, 0, 0, [1]⟩],
              [⟨1, "T1", none, 0, 1⟩, ⟨2, "T2", none, 0, 1⟩], []⟩ 1 (some "a@x")
              (QInt.val 1) (QInt.val 1)).tasks?.map (fun ts => ts[i]?)
            = some (if i < ppN
                then ((orderedTasks ⟨[⟨1, "a", "a@x", "pw"⟩], [⟨1, "P", none, 0, 0, [1]⟩],
                    [⟨1, "T1", none, 0, 1⟩, ⟨2, "T2", none, 0, 1⟩], []⟩ 1).map Task.to_dict)[lo + i]?
                else none)) :=
  ⟨by decide, by decide, by decide, by decide,
    C4_pagination_window _ 1 "a@x" ⟨1, "P", none, 0, 0, [1]⟩ ⟨1, "a", "a@x", "pw"⟩
      (QInt.val 1) (QInt.val 1) 1 1 (by decide) (by decide) (by decide) (by decide)
      (by decide) (by decide) (by decide) (by decide)⟩

/-- C3: the listing's task sequence is exactly the project's tasks
sorted by `order` ascending with ties broken by `id` ascending, and it
is independent of creation order: the ordered sequence is a sorted
permutation of the project's task rows, and any reordering of the
tasks table (ids being distinct) leaves every listing response
unchanged. -/
theorem C3_tasks_sorted_deterministic (db : DB) (ts2 : List Task) (pid : Nat)
    (e : Option String) (pageQ ppQ : QInt)
    (hperm : db.tasks.Perm ts2)
    (hnodup : ((db.tasks.filter (fun t => t.project_id == pid)).map Task.id).Nodup) :
    (orderedTasks db pid).Perm (db.tasks.filter (fun t => t.project_id == pid))
    ∧ (orderedTasks db pid).Pairwise taskLE
    ∧ tasks_by_project db pid e pageQ ppQ
        = tasks_by_project { db with tasks := ts2 } pid e pageQ ppQ := by
  have hp1 := orderedTasks_perm db pid
  have hs1 := orderedTasks_sorted db pid
  refine ⟨hp1, hs1, ?_⟩
  have hord : orderedTasks db pid = orderedTasks { db with tasks := ts2 } pid := by
    have hp2 : (orderedTasks { db with tasks := ts2 } pid).Perm
        (ts2.filter (fun t => t.project_id == pid)) :=
      orderedTasks_perm { db with tasks := ts2 } pid
    have hfperm : (db.tasks.filter (fun t => t.project_id == pid)).Perm
        (ts2.filter (fun t => t.project_id == pid)) := hperm.filter _
    have hp12 : (orderedTasks db pid).Perm (orderedTasks { db with tasks := ts2 } pid) :=
      ((hp1.trans hfperm).trans hp2.symm)
    have hn1 : ((orderedTasks db pid).map Task.id).Nodup :=
      ((hp1.map Task.id).nodup_iff).mpr hnodup
    exact eq_of_perm_of_sorted_of_nodupIds _ _ hp12 hs1
      (orderedTasks_sorted { db with tasks := ts2 } pid) hn1
  cases e with
  | none => rfl
  | some s =>
    simp only [tasks_by_project, findUserByEmail, findProject, hord]

/-- C3 witness: the spec scenario — creation order
[(order=2,id=5), (order=1,id=3), (order=1,id=1)], page=1, per_page=2
returns [(order=1,id=1), (order=1,id=3)], and any reordering of the
tasks table gives the identical response. -/
theorem C3_tasks_sorted_deterministic_witness :
    ([⟨5, "T5", none, 2, 1⟩, ⟨3, "T3", none, 1, 1⟩, ⟨1, "T1", none, 1, 1⟩] : List Task).Perm
        [⟨3, "T3", none, 1, 1⟩, ⟨1, "T1", none, 1, 1⟩, ⟨5, "T5", none, 2, 1⟩]
    ∧ ((([⟨5, "T5", none, 2, 1⟩, ⟨3, "T3", none, 1, 1⟩, ⟨1, "T1", none, 1, 1⟩] : List Task).filter
          (fun t => t.project_id == 1)).map Task.id).Nodup
    ∧ tasks_by_project ⟨[⟨1, "a", "a@x", "pw"⟩], [⟨1, "P", none, 0, 0, [1]⟩],
          [⟨5, "T5", none, 2, 1⟩, ⟨3, "T3", none, 1, 1⟩, ⟨1, "T1", none, 1, 1⟩], []⟩ 1
          (some "a@x") (QInt.val 1) (QInt.val 2)
        = TasksResponse.ok 1 "a@x" ⟨1, 2, 3, 2⟩
            [⟨1, "T1", none, 1, 1⟩, ⟨3, "T3", none, 1, 1⟩]
    ∧ ((orderedTasks ⟨[⟨1, "a", "a@x", "pw"⟩], [⟨1, "P", none, 0, 0, [1]⟩],
            [⟨5, "T5", none, 2, 1⟩, ⟨3, "T3", none, 1, 1⟩, ⟨1, "T1", none, 1, 1⟩], []⟩ 1).Perm
          ((⟨[⟨1, "a", "a@x", "pw"⟩], [⟨1, "P", none, 0, 0, [1]⟩],
            [⟨5, "T5", none, 2, 1⟩, ⟨3, "T3", none, 1, 1⟩, ⟨1, "T1", none, 1, 1⟩], []⟩ : DB).tasks.filter
              (fun t => t.project_id == 1))
      ∧ (orderedTasks ⟨[⟨1, "a", "a@x", "pw"⟩], [⟨1, "P", none, 0, 0, [1]⟩],
            [⟨5, "T5", none, 2, 1⟩, ⟨3, "T3", none, 1, 1⟩, ⟨1, "T1", none, 1, 1⟩], []⟩ 1).Pairwise taskLE
      ∧ tasks_by_project ⟨[⟨1, "a", "a@x", "pw"⟩], [⟨1, "P", none, 0, 0, [1]⟩],
            [⟨5, "T5", none, 2, 1⟩, ⟨3, "T3", none, 1, 1⟩, ⟨1, "T1", none, 1, 1⟩], []⟩ 1
            (some "a@x") (QInt.val 1) (QInt.val 2)
          = tasks_by_project { (⟨[⟨1, "a", "a@x", "pw"⟩], [⟨1, "P", none, 0, 0, [1]⟩],
              [⟨5, "T5", none, 2, 1⟩, ⟨3, "T3", none, 1, 1⟩, ⟨1, "T1", none, 1, 1⟩], []⟩ : DB) with
              tasks := [⟨3, "T3", none, 1, 1⟩, ⟨1, "T1", none, 1, 1⟩, ⟨5, "T5", none, 2, 1⟩] } 1
              (some "a@x") (QInt.val 1) (QInt.val 2)) :=
  ⟨by decide, by decide, by decide,
    C3_tasks_sorted_deterministic _
      [⟨3, "T3", none, 1, 1⟩, ⟨1, "T1", none, 1, 1⟩, ⟨5, "T5", none, 2, 1⟩] 1
      (some "a@x") (QInt.val 1) (QInt.val 2) (by decide) (by decide)⟩

end TaskManager
